import Mathlib

/-!
Shallow embedding of the speech_sessions application
(models.py, api.py, serializers.py, views.py) and verification of its
specification.  Machine floats are modelled by rationals, timestamps by
integers (seconds), the database by a list of session records, and the
authenticated actor by a numeric user id.
-/

namespace SpeechSessions

/-- Embedding of the SpeechSession model (models.py).  Text fields are
strings, the optional audio asset is the stored file name, and
confidence_score is an optional rational. -/
structure Session where
  id : Nat
  user : Nat
  date : Int
  duration : Int
  filler_count : Int
  pacing_analysis : String
  status : String
  audio_file : Option String
  transcription : String
  confidence_score : Option ℚ
  created_at : Int
  updated_at : Int
  deriving DecidableEq, Repr

def secondsPerDay : Int := 86400

/-- Python round to the nearest integer, ties to the even integer. -/
def round_half_even (x : ℚ) : Int :=
  let f : Int := ⌊x⌋
  if x - f < 1/2 then f
  else if (1 : ℚ)/2 < x - f then f + 1
  else if f % 2 = 0 then f else f + 1

/-- Python round(x, 2). -/
def round2 (x : ℚ) : ℚ := (round_half_even (x * 100) : ℚ) / 100

/-- Sum of duration over a list of sessions (the Sum aggregate with the
empty aggregate None coalesced to 0). -/
def sumDuration (l : List Session) : Int := (l.map (fun s => s.duration)).sum

/-- Sum of filler_count over a list of sessions, empty coalesced to 0. -/
def sumFiller (l : List Session) : Int := (l.map (fun s => s.filler_count)).sum

/-- Mean of filler_count over a list of sessions (the Avg aggregate);
only used on nonempty lists, where it agrees with the source. -/
def avgFiller (l : List Session) : ℚ := (sumFiller l : ℚ) / (l.length : ℚ)

/-- The analytics payload assembled by SpeechSessionViewSet.analytics.
improvement_metrics holds the optional filler_improvement_percent. -/
structure AnalyticsResponse where
  total_sessions : Nat
  total_duration : Int
  average_duration : ℚ
  total_filler_words : Int
  average_filler_rate : ℚ
  sessions_by_status : List (String × Nat)
  recent_sessions_count : Nat
  improvement_metrics : Option ℚ
  deriving DecidableEq, Repr

/-- The sessions_by_status mapping: each status value present with its
count. -/
def statusCounts (l : List Session) : List (String × Nat) :=
  ((l.map (fun s => s.status)).dedup).map
    (fun st => (st, (l.filter (fun s => s.status == st)).length))

/-- Embedding of SpeechSessionViewSet.analytics (api.py lines 93 to 189).
The queryset is the db filtered to the owner; now is the current time. -/
def analytics (now : Int) (db : List Session) (owner : Nat) : AnalyticsResponse :=
  let sessions := db.filter (fun s => s.user == owner)
  let total := sessions.length
  if total = 0 then
    { total_sessions := 0, total_duration := 0, average_duration := 0,
      total_filler_words := 0, average_filler_rate := 0,
      sessions_by_status := [], recent_sessions_count := 0,
      improvement_metrics := none }
  else
    let total_duration := sumDuration sessions
    let avg_duration : ℚ := (total_duration : ℚ) / (total : ℚ)
    let analyzed := sessions.filter (fun s => s.status == "analyzed")
    let total_fillers := sumFiller analyzed
    let analyzed_duration := sumDuration analyzed
    let avg_filler_rate : ℚ :=
      if analyzed.isEmpty then 0
      else if 0 < analyzed_duration then
        (total_fillers : ℚ) / (analyzed_duration : ℚ) * 60
      else 0
    let thirty_days_ago := now - 30 * secondsPerDay
    let recent_count := (sessions.filter (fun s => thirty_days_ago ≤ s.date)).length
    let improvement : Option ℚ :=
      if 1 < total then
        let sixty_days_ago := now - 60 * secondsPerDay
        let recent := sessions.filter (fun s => thirty_days_ago ≤ s.date)
        let previous := sessions.filter
          (fun s => sixty_days_ago ≤ s.date && s.date < thirty_days_ago)
        if !recent.isEmpty && !previous.isEmpty then
          let recent_avg := avgFiller recent
          let previous_avg := avgFiller previous
          if 0 < previous_avg then
            some (round2 ((previous_avg - recent_avg) / previous_avg * 100))
          else none
        else none
      else none
    { total_sessions := total
      total_duration := total_duration
      average_duration := round2 avg_duration
      total_filler_words := total_fillers
      average_filler_rate := round2 avg_filler_rate
      sessions_by_status := statusCounts sessions
      recent_sessions_count := recent_count
      improvement_metrics := improvement }

/-- A JSON field value appearing in the bulk_update updates map. -/
inductive FieldValue where
  | str (v : String)
  | int (v : Int)
  | rat (v : ℚ)
  | null
  deriving DecidableEq, Repr

/-- One SET clause of the SQL UPDATE issued by queryset.update: assigns
the named column.  Only the columns named in the request change; in
particular updated_at is untouched because queryset.update bypasses
save() and hence auto_now. -/
def applyField (s : Session) (kv : String × FieldValue) : Session :=
  match kv with
  | ("status", FieldValue.str v) => { s with status := v }
  | ("pacing_analysis", FieldValue.str v) => { s with pacing_analysis := v }
  | ("filler_count", FieldValue.int v) => { s with filler_count := v }
  | ("confidence_score", FieldValue.rat v) => { s with confidence_score := some v }
  | ("confidence_score", FieldValue.null) => { s with confidence_score := none }
  | _ => s

/-- The allow-list of SpeechSessionViewSet.bulk_update (api.py line 223). -/
def allowedFields : List String :=
  ["status", "pacing_analysis", "filler_count", "confidence_score"]

/-- A session is selected by a bulk request when it belongs to the owner
and its id is among the supplied session_ids. -/
def bulkSelected (owner : Nat) (ids : List Nat) (s : Session) : Bool :=
  s.user == owner && ids.contains s.id

structure BulkUpdateResult where
  httpStatus : Nat
  db : List Session
  updated_count : Nat
  deriving DecidableEq, Repr

/-- Embedding of SpeechSessionViewSet.bulk_update (api.py lines 191 to 239):
400 when session_ids or updates is empty; 404 when no supplied id matches
a session of the owner; 400 when the updates map holds a key outside the
allow-list; otherwise queryset.update applies every clause to each
selected session and reports the number of matched rows. -/
def bulk_update (db : List Session) (owner : Nat) (ids : List Nat)
    (updates : List (String × FieldValue)) : BulkUpdateResult :=
  if ids.isEmpty || updates.isEmpty then ⟨400, db, 0⟩
  else
    let matched := db.filter (bulkSelected owner ids)
    if matched.isEmpty then ⟨404, db, 0⟩
    else if updates.any (fun kv => !allowedFields.contains kv.1) then ⟨400, db, 0⟩
    else
      ⟨200,
       db.map (fun s => if bulkSelected owner ids s then updates.foldl applyField s else s),
       matched.length⟩

/-- Result of DRF get_object: the object from the owner-filtered queryset,
a 404 when it is absent there, or a 403 if the object-permission check
failed (IsOwnerPermission.has_object_permission). -/
inductive GetObjectResult where
  | found (s : Session)
  | notFound
  | forbidden
  deriving DecidableEq, Repr

/-- Embedding of get_object over get_queryset (api.py lines 75 to 77):
the lookup runs inside the owner-filtered queryset, then the
object-level permission obj.user == request.user is checked. -/
def get_object (db : List Session) (actor pk : Nat) : GetObjectResult :=
  match (db.filter (fun s => s.user == actor)).find? (fun s => s.id == pk) with
  | some s =>
      if s.user == actor then GetObjectResult.found s else GetObjectResult.forbidden
  | none => GetObjectResult.notFound

/-- An HTTP response of a detail endpoint together with the database
state after the request. -/
structure ViewResult where
  httpStatus : Nat
  body : Option Session
  db : List Session
  deriving DecidableEq, Repr

/-- Retrieve a single session (GET /api/sessions/id/), and likewise the
page session_detail_view, which resolves get_object_or_404 with both the
pk and user=request.user. -/
def retrieve_view (db : List Session) (actor pk : Nat) : ViewResult :=
  match get_object db actor pk with
  | GetObjectResult.found s => ⟨200, some s, db⟩
  | GetObjectResult.notFound => ⟨404, none, db⟩
  | GetObjectResult.forbidden => ⟨403, none, db⟩

/-- Delete a session (DELETE /api/sessions/id/ and the page delete view). -/
def destroy_view (db : List Session) (actor pk : Nat) : ViewResult :=
  match get_object db actor pk with
  | GetObjectResult.found s => ⟨204, none, db.filter (fun t => !(t.id == s.id))⟩
  | GetObjectResult.notFound => ⟨404, none, db⟩
  | GetObjectResult.forbidden => ⟨403, none, db⟩

/-- The writable fields of SpeechSessionSerializer: everything except the
read-only id, user, date, created_at and updated_at. -/
structure UpdatePayload where
  duration : Int
  filler_count : Int
  pacing_analysis : String
  status : String
  audio_file : Option String
  transcription : String
  confidence_score : Option ℚ
  deriving DecidableEq, Repr

/-- The field validators of SpeechSessionSerializer (serializers.py
lines 57 to 73). -/
def validPayload (p : UpdatePayload) : Bool :=
  0 < p.duration && 0 ≤ p.filler_count &&
    (match p.confidence_score with
     | none => true
     | some c => decide (0 ≤ c) && decide (c ≤ 1))

/-- Apply a full update through the serializer and save: writable fields
are overwritten, read-only fields kept, and save() sets the auto_now
column updated_at to the current time. -/
def applyPayload (now : Int) (p : UpdatePayload) (s : Session) : Session :=
  { s with duration := p.duration, filler_count := p.filler_count,
           pacing_analysis := p.pacing_analysis, status := p.status,
           audio_file := p.audio_file, transcription := p.transcription,
           confidence_score := p.confidence_score, updated_at := now }

/-- Update a session (PUT /api/sessions/id/): object lookup, serializer
validation, then save. -/
def update_view (now : Int) (db : List Session) (actor pk : Nat)
    (p : UpdatePayload) : ViewResult :=
  match get_object db actor pk with
  | GetObjectResult.found s =>
      if validPayload p then
        ⟨200, some (applyPayload now p s),
         db.map (fun t => if t.id == s.id then applyPayload now p t else t)⟩
      else ⟨400, none, db⟩
  | GetObjectResult.notFound => ⟨404, none, db⟩
  | GetObjectResult.forbidden => ⟨403, none, db⟩

/-- Truthiness of the FileField: absent or empty-named files are falsy. -/
def hasAudio (s : Session) : Bool :=
  match s.audio_file with
  | none => false
  | some n => !(n == "")

/-- The simulated re-analysis applied to a session (api.py lines 256 to
262).  hashFn abstracts the Python hash of str(id); ts is the formatted
current time; save() bumps updated_at.  The Python expression
session.confidence_score or 0.8 treats both None and a stored 0.0 as
falsy, so both fall back to the 0.8 base. -/
def reanalyzeSession (hashFn : String → Nat) (ts : String) (now : Int)
    (s : Session) : Session :=
  { s with
    filler_count :=
      max 0 (s.filler_count +
        (([-2, -1, 0, 1, 2] : List Int).getD (hashFn (toString s.id) % 5) 0)),
    pacing_analysis := "Re-analyzed on " ++ ts ++ ": " ++ s.pacing_analysis,
    confidence_score :=
      some (min 1 (max 0
        ((match s.confidence_score with
          | none => (4 : ℚ)/5
          | some c => if c = 0 then (4 : ℚ)/5 else c) + 1/20))),
    status := "analyzed",
    updated_at := now }

/-- Embedding of SpeechSessionViewSet.reanalyze (api.py lines 241 to 269):
object lookup, 400 without touching anything when no audio asset is
present, otherwise the simulator runs and the session is saved. -/
def reanalyze_view (hashFn : String → Nat) (ts : String) (now : Int)
    (db : List Session) (actor pk : Nat) : ViewResult :=
  match get_object db actor pk with
  | GetObjectResult.found s =>
      if !hasAudio s then ⟨400, none, db⟩
      else
        ⟨200, some (reanalyzeSession hashFn ts now s),
         db.map (fun t => if t.id == s.id then reanalyzeSession hashFn ts now t else t)⟩
  | GetObjectResult.notFound => ⟨404, none, db⟩
  | GetObjectResult.forbidden => ⟨403, none, db⟩

structure BulkActionResult where
  httpStatus : Nat
  db : List Session
  deriving DecidableEq, Repr

/-- A session is selected by session_bulk_action_view when its id is
listed and it belongs to the requesting user. -/
def actionSelected (actor : Nat) (ids : List Nat) (s : Session) : Bool :=
  ids.contains s.id && s.user == actor

/-- Embedding of session_bulk_action_view (views.py lines 179 to 227).
The archive and mark_analyzed branches run queryset.update, which leaves
updated_at alone. -/
def bulk_action (db : List Session) (actor : Nat) (action : String)
    (ids : List Nat) : BulkActionResult :=
  if action == "" || ids.isEmpty then ⟨400, db⟩
  else
    let selected := db.filter (actionSelected actor ids)
    if selected.isEmpty then ⟨404, db⟩
    else if action == "delete" then
      ⟨200, db.filter (fun s => !actionSelected actor ids s)⟩
    else if action == "archive" then
      ⟨200, db.map (fun s =>
        if actionSelected actor ids s then { s with status := "archived" } else s)⟩
    else if action == "mark_analyzed" then
      ⟨200, db.map (fun s =>
        if actionSelected actor ids s then { s with status := "analyzed" } else s)⟩
    else ⟨400, db⟩

/-- Lowercase a string, character by character. -/
def toLowerChars (t : String) : List Char := t.data.map Char.toLower

/-- Whether the first list is a prefix of the second. -/
def isPrefixChars : List Char → List Char → Bool
  | [], _ => true
  | _ :: _, [] => false
  | a :: as, b :: bs => a == b && isPrefixChars as bs

/-- Whether the first list occurs contiguously inside the second. -/
def containsChars (needle : List Char) : List Char → Bool
  | [] => needle.isEmpty
  | c :: rest => isPrefixChars needle (c :: rest) || containsChars needle rest

/-- The icontains lookup: case-insensitive substring match. -/
def icontains (haystack needle : String) : Bool :=
  containsChars (toLowerChars needle) (toLowerChars haystack)

/-- The day a timestamp falls in, for the date__date day-granularity
comparisons of the list view. -/
def dayOf (t : Int) : Int := t / secondsPerDay

/-- Ordering of sessions by date descending (order_by minus-date). -/
def dateGe (a b : Session) : Prop := b.date ≤ a.date

instance : DecidableRel dateGe := fun a b => Int.decLe b.date a.date

instance : IsTotal Session dateGe := ⟨fun a b => Int.le_total b.date a.date⟩

instance : IsTrans Session dateGe := ⟨fun _ _ _ hab hbc => le_trans hbc hab⟩

/-- Embedding of session_list_view (views.py lines 37 to 74): the owner
scope is applied first, each filter clause only when its cleaned form
input is present, then the result is ordered by date descending.  The
date inputs are day numbers, as produced by the date form fields. -/
def session_list (db : List Session) (owner : Nat) (statusq : Option String)
    (dayFrom dayTo : Option Int) (searchq : Option String) : List Session :=
  let s0 := db.filter (fun s => s.user == owner)
  let s1 := match statusq with
    | some st => s0.filter (fun s => s.status == st)
    | none => s0
  let s2 := match dayFrom with
    | some d => s1.filter (fun s => decide (d ≤ dayOf s.date))
    | none => s1
  let s3 := match dayTo with
    | some d => s2.filter (fun s => decide (dayOf s.date ≤ d))
    | none => s2
  let s4 := match searchq with
    | some q => s3.filter (fun s => icontains s.transcription q || icontains s.pacing_analysis q)
    | none => s3
  List.insertionSort dateGe s4

/-- Page n of a Paginator over the ordered list, at page size 10. -/
def page_items (l : List Session) (pageNum : Nat) : List Session :=
  (l.drop ((pageNum - 1) * 10)).take 10

/-- A neutral session record used to build concrete test fixtures. -/
def baseSession : Session :=
  { id := 0, user := 0, date := 0, duration := 60, filler_count := 0,
    pacing_analysis := "", status := "pending", audio_file := none,
    transcription := "", confidence_score := none, created_at := 0,
    updated_at := 0 }

/-- Fixture: an analyzed 60-second session of owner 7 with 6 fillers. -/
def exA : Session :=
  { baseSession with id := 1, user := 7, duration := 60, filler_count := 6,
                     status := "analyzed" }

/-- Fixture: an analyzed 120-second session of owner 7 with 3 fillers. -/
def exB : Session :=
  { baseSession with id := 2, user := 7, duration := 120, filler_count := 3,
                     status := "analyzed" }

/-- Fixture: an analyzed 7-second session of owner 1 with one filler. -/
def sC1 : Session :=
  { baseSession with id := 1, user := 1, duration := 7, filler_count := 1,
                     status := "analyzed" }

/-- Fixture: a pending session owned by user 1 with id 1. -/
def sC3 : Session := { baseSession with id := 1, user := 1 }

/-- Fixture: a session of owner 1 with an audio asset and a stored
confidence score of exactly 0. -/
def sC7 : Session :=
  { baseSession with id := 3, user := 1, audio_file := some ("a.mp3"),
                     confidence_score := some 0, filler_count := 5 }

/-- Fixture: a session of owner 1 with an audio asset and no stored
confidence score. -/
def wC7 : Session :=
  { baseSession with id := 4, user := 1, audio_file := some ("b.mp3") }

/-- Fixture: a session owned by user 2 with id 5. -/
def wC4 : Session := { baseSession with id := 5, user := 2 }

/-- Fixture: a fully populated valid update payload. -/
def wPayload : UpdatePayload :=
  { duration := 60, filler_count := 0, pacing_analysis := "",
    status := "pending", audio_file := none, transcription := "",
    confidence_score := none }

/-- Fixture: a session of owner 1 without an audio asset. -/
def wC8 : Session := { baseSession with id := 6, user := 1 }

/-- Fixture: a session of owner 1 whose updated_at is 50. -/
def sC9 : Session := { baseSession with id := 9, user := 1, updated_at := 50 }

/-- Fixture: a session of owner 1 with id 1, for bulk requests. -/
def wC10a : Session := { baseSession with id := 1, user := 1 }

/-- Fixture: a session of owner 2 with id 2, for bulk requests. -/
def wC10b : Session := { baseSession with id := 2, user := 2 }

/-- The identity-like fields of a session that no operation may change:
id, owner, creation date and created_at. -/
def identityFields (s : Session) : Nat × Nat × Int × Int :=
  (s.id, s.user, s.date, s.created_at)

/-! Section Helper lemmas -/

lemma round2_zero : round2 0 = 0 := by
  norm_num [round2, round_half_even]

lemma filter_and_filter (l : List Session) (p q : Session → Bool) :
    (l.filter p).filter q = l.filter (fun s => p s && q s) := by
  simp [List.filter_filter, Bool.and_comm]

/-! Section C1 -/

/-- C1: corrected.  The average_filler_rate field of the analytics
response is the fillers-per-minute ratio over the analyzed sessions of
the owner, rounded to two decimals, and 0 when the analyzed-duration sum
is 0; pending and archived sessions contribute to neither sum.  On the
two-session example with durations 60 and 120 and filler counts 6 and 3
the value is exactly 3. -/
theorem C1_average_filler_rate :
    (∀ (now : Int) (db : List Session) (owner : Nat),
      (analytics now db owner).average_filler_rate =
        round2
          (if 0 < sumDuration (db.filter (fun s => s.user == owner && s.status == "analyzed"))
           then (sumFiller (db.filter (fun s => s.user == owner && s.status == "analyzed")) : ℚ) /
                  (sumDuration (db.filter (fun s => s.user == owner && s.status == "analyzed")) : ℚ) * 60
           else 0)) ∧
    (analytics 0 [exA, exB] 7).average_filler_rate = 3 := by
  constructor
  · intro now db owner
    rw [← filter_and_filter]
    by_cases h : (db.filter (fun s => s.user == owner)).length = 0
    · rw [List.length_eq_zero] at h
      simp [analytics, h, sumDuration, round2_zero]
    · simp only [analytics, if_neg h]
      congr 1
      by_cases he : (db.filter (fun s => s.user == owner)).filter (fun s => s.status == "analyzed") = []
      · simp [he, sumDuration]
      · rw [List.isEmpty_eq_false.mpr he]
        simp
  · norm_num [analytics, exA, exB, baseSession, sumFiller, sumDuration, round2,
      round_half_even, statusCounts]

/-- C1: counterexample to the claim as stated.  Owner 1 has a single
analyzed session of duration 7 with one filler; the claimed value is
(1 divided by 7) times 60, but the response carries the value rounded to
two decimals, 8.57, which differs. -/
theorem C1_counterexample :
    (analytics 0 [sC1] 1).average_filler_rate ≠ (1 : ℚ)/7 * 60 := by
  norm_num [analytics, sC1, baseSession, sumFiller, sumDuration, round2,
    round_half_even, statusCounts]

/-! Section C2 -/

/-- C2: confirmed.  The analytics response carries
improvement_metrics.filler_improvement_percent exactly when the owner has
more than one session, the last-30-days window and the preceding 30-day
window each hold at least one of the owner sessions, and the previous
window average filler_count is positive; the value is then
((previous_avg - recent_avg) / previous_avg) * 100 rounded to two
decimals, and the field is absent otherwise. -/
theorem C2_improvement_metrics (now : Int) (db : List Session) (owner : Nat) :
    (analytics now db owner).improvement_metrics =
      (if 1 < (db.filter (fun s => s.user == owner)).length ∧
          (db.filter (fun s => s.user == owner)).filter
            (fun s => now - 30 * secondsPerDay ≤ s.date) ≠ [] ∧
          (db.filter (fun s => s.user == owner)).filter
            (fun s => now - 60 * secondsPerDay ≤ s.date && s.date < now - 30 * secondsPerDay) ≠ [] ∧
          0 < avgFiller ((db.filter (fun s => s.user == owner)).filter
            (fun s => now - 60 * secondsPerDay ≤ s.date && s.date < now - 30 * secondsPerDay))
       then
        some (round2
          ((avgFiller ((db.filter (fun s => s.user == owner)).filter
              (fun s => now - 60 * secondsPerDay ≤ s.date && s.date < now - 30 * secondsPerDay)) -
            avgFiller ((db.filter (fun s => s.user == owner)).filter
              (fun s => now - 30 * secondsPerDay ≤ s.date))) /
            avgFiller ((db.filter (fun s => s.user == owner)).filter
              (fun s => now - 60 * secondsPerDay ≤ s.date && s.date < now - 30 * secondsPerDay)) * 100))
       else none) := by
  by_cases h : (db.filter (fun s => s.user == owner)).length = 0
  · rw [List.length_eq_zero] at h
    simp [analytics, h]
  · simp only [analytics, if_neg h]
    set R := (db.filter (fun s => s.user == owner)).filter
      (fun s => now - 30 * secondsPerDay ≤ s.date) with hRdef
    set P := (db.filter (fun s => s.user == owner)).filter
      (fun s => now - 60 * secondsPerDay ≤ s.date && s.date < now - 30 * secondsPerDay) with hPdef
    by_cases h1 : 1 < (db.filter (fun s => s.user == owner)).length
    · rw [if_pos h1]
      by_cases hr : R = []
      · rw [if_neg (show ¬(!R.isEmpty && !P.isEmpty) = true by simp [hr])]
        exact (if_neg (fun hc => hc.2.1 hr)).symm
      · by_cases hp : P = []
        · rw [if_neg (show ¬(!R.isEmpty && !P.isEmpty) = true by simp [hp])]
          exact (if_neg (fun hc => hc.2.2.1 hp)).symm
        · rw [if_pos (show (!R.isEmpty && !P.isEmpty) = true by
            simp [List.isEmpty_eq_false.mpr hr, List.isEmpty_eq_false.mpr hp])]
          by_cases ha : 0 < avgFiller P
          · rw [if_pos ha, if_pos ⟨h1, hr, hp, ha⟩]
          · rw [if_neg ha, if_neg (fun hc => ha hc.2.2.2)]
    · rw [if_neg h1, if_neg (fun hc => h1 hc.1)]

/-! Section C3 -/

/-- C3: the code violates the claimed invariant.  A bulk update whose
allow-listed update map carries confidence_score 5 succeeds and stores
the out-of-range value, because queryset.update bypasses every
validator, and the model field itself has no upper-bound validator; a
negative filler_count is stored the same way. -/
theorem C3_bulk_update_bypasses_validation :
    (bulk_update [sC3] 1 [1] [(("confidence_score" : String), FieldValue.rat 5)]).httpStatus = 200 ∧
    (bulk_update [sC3] 1 [1] [(("confidence_score" : String), FieldValue.rat 5)]).db =
      [{ sC3 with confidence_score := some 5 }] ∧
    (bulk_update [sC3] 1 [1] [(("filler_count" : String), FieldValue.int (-3))]).db =
      [{ sC3 with filler_count := -3 }] :=
  ⟨rfl, rfl, rfl⟩

/-! Section C5 -/

/-- C5: counterexample to the claim as stated.  The update map contains
the disallowed key transcription, yet because none of the supplied
session_ids matches a session of owner 1 the endpoint answers 404, not
the claimed 400: the not-found check runs before field validation. -/
theorem C5_counterexample :
    (bulk_update [sC3] 1 [999] [(("transcription" : String), FieldValue.str ("x"))]).httpStatus = 404 ∧
    (bulk_update [sC3] 1 [999] [(("transcription" : String), FieldValue.str ("x"))]).httpStatus ≠ 400 :=
  ⟨rfl, by decide⟩

/-- C5: amended.  With nonempty session_ids and updates, a disallowed
key in the update map fails the whole request with 400 provided at least
one supplied id matches a session of the owner; when no id matches, the
404 check takes precedence even over the disallowed key; in both cases
no session field of any session is modified. -/
theorem C5_amended (db : List Session) (owner : Nat) (ids : List Nat)
    (updates : List (String × FieldValue))
    (hids : ids ≠ []) (hupd : updates ≠ [])
    (hbad : ∃ kv ∈ updates, kv.1 ∉ allowedFields) :
    (db.filter (bulkSelected owner ids) ≠ [] →
      (bulk_update db owner ids updates).httpStatus = 400) ∧
    (db.filter (bulkSelected owner ids) = [] →
      (bulk_update db owner ids updates).httpStatus = 404) ∧
    (bulk_update db owner ids updates).db = db := by
  have h0 : (ids.isEmpty || updates.isEmpty) = false := by
    simp [List.isEmpty_iff, hids, hupd]
  have hany : (updates.any (fun kv => !allowedFields.contains kv.1)) = true := by
    obtain ⟨kv, hkv, hout⟩ := hbad
    refine List.any_eq_true.mpr ⟨kv, hkv, ?_⟩
    simpa using hout
  by_cases hm : db.filter (bulkSelected owner ids) = []
  · have key : bulk_update db owner ids updates = ⟨404, db, 0⟩ := by
      simp only [bulk_update]
      rw [if_neg (by rw [h0]; exact Bool.false_ne_true), if_pos (List.isEmpty_iff.mpr hm)]
    exact ⟨fun hc => absurd hm hc, fun _ => by rw [key], by rw [key]⟩
  · have hb : (db.filter (bulkSelected owner ids)).isEmpty = false :=
      List.isEmpty_eq_false.mpr hm
    have key : bulk_update db owner ids updates = ⟨400, db, 0⟩ := by
      simp only [bulk_update]
      rw [if_neg (by rw [h0]; exact Bool.false_ne_true),
          if_neg (by rw [hb]; exact Bool.false_ne_true),
          if_pos hany]
    exact ⟨fun _ => by rw [key], fun hc => absurd hc hm, by rw [key]⟩

/-- C5: witness.  A concrete request of owner 1 whose id list matches a
session but whose update map carries the disallowed key transcription is
rejected with 400. -/
theorem C5_amended_witness :
    (([1] : List Nat) ≠ [] ∧
     ([(("transcription" : String), FieldValue.str ("x"))] : List (String × FieldValue)) ≠ [] ∧
     (∃ kv ∈ [(("transcription" : String), FieldValue.str ("x"))], kv.1 ∉ allowedFields) ∧
     [sC3].filter (bulkSelected 1 [1]) ≠ []) ∧
    (bulk_update [sC3] 1 [1] [(("transcription" : String), FieldValue.str ("x"))]).httpStatus = 400 := by
  have hids : ([1] : List Nat) ≠ [] := by decide
  have hupd : ([(("transcription" : String), FieldValue.str ("x"))] : List (String × FieldValue)) ≠ [] := by
    intro hc
    cases hc
  have hbad : ∃ kv ∈ [(("transcription" : String), FieldValue.str ("x"))], kv.1 ∉ allowedFields := by
    refine ⟨(("transcription" : String), FieldValue.str ("x")), by simp, by decide⟩
  have hm : [sC3].filter (bulkSelected 1 [1]) ≠ [] := by decide
  exact ⟨⟨hids, hupd, hbad, hm⟩,
    (C5_amended [sC3] 1 [1] [(("transcription" : String), FieldValue.str ("x"))] hids hupd hbad).1 hm⟩

/-! Section C10 -/

/-- C10: confirmed.  A valid bulk update with at least one matching owned
id succeeds with 200; it rewrites exactly the owned sessions among the
supplied ids by folding the update map over them, leaves every other
session in place unchanged (ids of other users or of no session are
silently skipped), and reports updated_count as the number of sessions
actually updated. -/
theorem C10_bulk_update_scope (db : List Session) (owner : Nat) (ids : List Nat)
    (updates : List (String × FieldValue))
    (hids : ids ≠ []) (hupd : updates ≠ [])
    (hgood : ∀ kv ∈ updates, kv.1 ∈ allowedFields)
    (hmatch : ∃ s ∈ db, bulkSelected owner ids s = true) :
    (bulk_update db owner ids updates).httpStatus = 200 ∧
    (bulk_update db owner ids updates).db =
      db.map (fun s => if bulkSelected owner ids s then updates.foldl applyField s else s) ∧
    (∀ s ∈ db, bulkSelected owner ids s = false → s ∈ (bulk_update db owner ids updates).db) ∧
    (∀ s ∈ db, bulkSelected owner ids s = true →
      updates.foldl applyField s ∈ (bulk_update db owner ids updates).db) ∧
    (bulk_update db owner ids updates).updated_count =
      (db.filter (bulkSelected owner ids)).length := by
  have h0 : (ids.isEmpty || updates.isEmpty) = false := by
    simp [List.isEmpty_iff, hids, hupd]
  have hm : db.filter (bulkSelected owner ids) ≠ [] := by
    obtain ⟨s, hs, hsel⟩ := hmatch
    exact List.ne_nil_of_mem (List.mem_filter.mpr ⟨hs, hsel⟩)
  have hany : (updates.any (fun kv => !allowedFields.contains kv.1)) = false := by
    rw [List.any_eq_false]
    intro kv hkv
    simpa using hgood kv hkv
  have key : bulk_update db owner ids updates =
      ⟨200,
       db.map (fun s => if bulkSelected owner ids s then updates.foldl applyField s else s),
       (db.filter (bulkSelected owner ids)).length⟩ := by
    simp only [bulk_update]
    rw [if_neg (by rw [h0]; exact Bool.false_ne_true),
        if_neg (by rw [List.isEmpty_eq_false.mpr hm]; exact Bool.false_ne_true),
        if_neg (by rw [hany]; exact Bool.false_ne_true)]
  refine ⟨by rw [key], by rw [key], ?_, ?_, by rw [key]⟩
  · intro s hs hsel
    rw [key]
    exact List.mem_map.mpr ⟨s, hs, by rw [hsel]; rfl⟩
  · intro s hs hsel
    rw [key]
    exact List.mem_map.mpr ⟨s, hs, by rw [hsel]; rfl⟩

/-- C10: witness.  Owner 1 bulk-updates ids 1, 2 and 999: id 2 belongs
to user 2 and 999 to nobody, so only the session with id 1 is archived
and updated_count is 1. -/
theorem C10_bulk_update_scope_witness :
    (([1, 2, 999] : List Nat) ≠ [] ∧
     ([(("status" : String), FieldValue.str ("archived"))] : List (String × FieldValue)) ≠ [] ∧
     (∀ kv ∈ [(("status" : String), FieldValue.str ("archived"))], kv.1 ∈ allowedFields) ∧
     (∃ s ∈ [wC10a, wC10b], bulkSelected 1 [1, 2, 999] s = true)) ∧
    (bulk_update [wC10a, wC10b] 1 [1, 2, 999]
      [(("status" : String), FieldValue.str ("archived"))]).updated_count =
      ([wC10a, wC10b].filter (bulkSelected 1 [1, 2, 999])).length := by
  have hids : ([1, 2, 999] : List Nat) ≠ [] := by decide
  have hupd : ([(("status" : String), FieldValue.str ("archived"))] : List (String × FieldValue)) ≠ [] := by
    intro hc
    cases hc
  have hgood : ∀ kv ∈ [(("status" : String), FieldValue.str ("archived"))], kv.1 ∈ allowedFields := by
    decide
  have hmatch : ∃ s ∈ [wC10a, wC10b], bulkSelected 1 [1, 2, 999] s = true := by
    exact ⟨wC10a, by simp, by decide⟩
  exact ⟨⟨hids, hupd, hgood, hmatch⟩,
    (C10_bulk_update_scope [wC10a, wC10b] 1 [1, 2, 999]
      [(("status" : String), FieldValue.str ("archived"))] hids hupd hgood hmatch).2.2.2.2⟩

/-! Section C4 -/

lemma get_object_not_forbidden (db : List Session) (actor pk : Nat) :
    get_object db actor pk ≠ GetObjectResult.forbidden := by
  unfold get_object
  cases hfind : (db.filter (fun s => s.user == actor)).find? (fun s => s.id == pk) with
  | none => intro hc; cases hc
  | some s =>
      have hmem : s ∈ db.filter (fun s => s.user == actor) :=
        List.mem_of_find?_eq_some hfind
      have huser : (s.user == actor) = true := (List.mem_filter.mp hmem).2
      dsimp only
      rw [if_pos huser]
      intro hc
      cases hc

lemma get_object_cross_owner (db : List Session) (actor pk : Nat)
    (h : ∀ s ∈ db, s.id = pk → s.user ≠ actor) :
    get_object db actor pk = GetObjectResult.notFound := by
  unfold get_object
  cases hfind : (db.filter (fun s => s.user == actor)).find? (fun s => s.id == pk) with
  | none => rfl
  | some s =>
      have hmem : s ∈ db.filter (fun s => s.user == actor) :=
        List.mem_of_find?_eq_some hfind
      have huser : (s.user == actor) = true := (List.mem_filter.mp hmem).2
      have hid : s.id = pk := by simpa using List.find?_some hfind
      exact absurd (show s.user = actor by simpa using huser)
        (h s (List.mem_filter.mp hmem).1 hid)

/-- C4: confirmed.  When every session of the database with the
requested id belongs to someone other than the actor, retrieve, update,
delete and re-analyze all answer 404 with no session data and leave the
database unchanged; moreover the object lookup can never produce a
permission-denied outcome, because the lookup itself is scoped to the
owner before the object permission is checked. -/
theorem C4_cross_owner_not_found (db : List Session) (actor pk : Nat) (now : Int)
    (p : UpdatePayload) (hashFn : String → Nat) (ts : String)
    (h : ∀ s ∈ db, s.id = pk → s.user ≠ actor) :
    retrieve_view db actor pk = ⟨404, none, db⟩ ∧
    update_view now db actor pk p = ⟨404, none, db⟩ ∧
    destroy_view db actor pk = ⟨404, none, db⟩ ∧
    reanalyze_view hashFn ts now db actor pk = ⟨404, none, db⟩ ∧
    (∀ (db2 : List Session) (a2 k2 : Nat),
      get_object db2 a2 k2 ≠ GetObjectResult.forbidden) := by
  have hfound := get_object_cross_owner db actor pk h
  exact ⟨by rw [retrieve_view, hfound], by rw [update_view, hfound],
    by rw [destroy_view, hfound], by rw [reanalyze_view, hfound],
    fun db2 a2 k2 => get_object_not_forbidden db2 a2 k2⟩

/-- C4: witness.  User 1 requests the session with id 5, which belongs to
user 2: the retrieve endpoint answers 404 without data. -/
theorem C4_cross_owner_not_found_witness :
    (∀ s ∈ [wC4], s.id = 5 → s.user ≠ 1) ∧
    retrieve_view [wC4] 1 5 = ⟨404, none, [wC4]⟩ := by
  have h : ∀ s ∈ [wC4], s.id = 5 → s.user ≠ 1 := by decide
  exact ⟨h, (C4_cross_owner_not_found [wC4] 1 5 0 wPayload (fun _ => 0) ("") h).1⟩

/-! Section C7 -/

/-- C7: counterexample to the claim as stated.  The session sC7 has an
audio asset and a stored confidence_score of exactly 0; the claim
predicts the new score min 1 (max 0 (0 + 0.05)) = 0.05, but re-analysis
produces 0.85, because the Python expression
session.confidence_score or 0.8 treats the stored 0.0 as falsy and
substitutes the 0.8 base. -/
theorem C7_counterexample :
    (reanalyze_view (fun _ => 0) ("t") 99 [sC7] 1 3).body.map
      (fun s => s.confidence_score) = some (some ((17 : ℚ)/20)) ∧
    ((17 : ℚ)/20) ≠ min 1 (max 0 ((0 : ℚ) + 1/20)) := by
  constructor
  · have hobj : get_object [sC7] 1 3 = GetObjectResult.found sC7 := rfl
    rw [reanalyze_view, hobj]
    norm_num [hasAudio, sC7, baseSession, reanalyzeSession,
      (by decide : ¬("a.mp3" : String) = "")]
  · rw [show min 1 (max 0 ((0 : ℚ) + 1/20)) = 1/20 by norm_num [min_def, max_def]]
    norm_num

/-- C7: amended.  On a session with an audio asset, re-analysis answers
200 with the transformed session: filler_count becomes
max 0 (filler_count + d) with d drawn from (-2, -1, 0, 1, 2) at index
hash(str(id)) mod 5, a timestamped note is prepended to pacing_analysis,
confidence_score becomes the previous score plus 0.05 clamped to [0, 1]
with 0.8 as the base when the score is unset or stored as exactly 0, and
status becomes analyzed. -/
theorem C7_reanalyze (hashFn : String → Nat) (ts : String) (now : Int)
    (db : List Session) (actor pk : Nat) (s : Session)
    (hfound : get_object db actor pk = GetObjectResult.found s)
    (haudio : hasAudio s = true) :
    (reanalyze_view hashFn ts now db actor pk).httpStatus = 200 ∧
    (reanalyze_view hashFn ts now db actor pk).body =
      some (reanalyzeSession hashFn ts now s) ∧
    (reanalyzeSession hashFn ts now s).filler_count =
      max 0 (s.filler_count +
        (([-2, -1, 0, 1, 2] : List Int).getD (hashFn (toString s.id) % 5) 0)) ∧
    (reanalyzeSession hashFn ts now s).pacing_analysis =
      "Re-analyzed on " ++ ts ++ ": " ++ s.pacing_analysis ∧
    (reanalyzeSession hashFn ts now s).confidence_score =
      some (min 1 (max 0
        ((if s.confidence_score = none ∨ s.confidence_score = some 0 then (4 : ℚ)/5
          else s.confidence_score.getD 0) + 1/20))) ∧
    (reanalyzeSession hashFn ts now s).status = "analyzed" := by
  have hview : reanalyze_view hashFn ts now db actor pk =
      ⟨200, some (reanalyzeSession hashFn ts now s),
       db.map (fun t => if t.id == s.id then reanalyzeSession hashFn ts now t else t)⟩ := by
    rw [reanalyze_view, hfound]
    dsimp only
    rw [haudio, if_neg (by decide)]
  refine ⟨by rw [hview], by rw [hview], rfl, rfl, ?_, rfl⟩
  cases hc : s.confidence_score with
  | none => simp [reanalyzeSession, hc]
  | some c =>
      by_cases hz : c = 0
      · simp [reanalyzeSession, hc, hz]
      · simp [reanalyzeSession, hc, hz]

/-- C7: witness.  Re-analysis of a concrete owned session with an audio
asset and no stored confidence score answers 200. -/
theorem C7_reanalyze_witness :
    (get_object [wC7] 1 4 = GetObjectResult.found wC7 ∧ hasAudio wC7 = true) ∧
    (reanalyze_view (fun _ => 0) ("ts") 11 [wC7] 1 4).httpStatus = 200 := by
  have hfound : get_object [wC7] 1 4 = GetObjectResult.found wC7 := rfl
  have haudio : hasAudio wC7 = true := rfl
  exact ⟨⟨hfound, haudio⟩,
    (C7_reanalyze (fun _ => 0) ("ts") 11 [wC7] 1 4 wC7 hfound haudio).1⟩

/-! Section C8 -/

/-- C8: confirmed.  Re-analysis of a session without an audio asset
answers 400 and performs no state change at all: the database after the
request is the database before it, so filler_count, pacing_analysis,
confidence_score, status and updated_at of the session all keep their
prior values. -/
theorem C8_reanalyze_no_audio (hashFn : String → Nat) (ts : String) (now : Int)
    (db : List Session) (actor pk : Nat) (s : Session)
    (hfound : get_object db actor pk = GetObjectResult.found s)
    (hnoaudio : hasAudio s = false) :
    reanalyze_view hashFn ts now db actor pk = ⟨400, none, db⟩ := by
  rw [reanalyze_view, hfound]
  dsimp only
  rw [hnoaudio, if_pos (by decide)]

/-- C8: witness.  Re-analysis of a concrete owned session without an
audio asset answers 400 and leaves the database unchanged. -/
theorem C8_reanalyze_no_audio_witness :
    (get_object [wC8] 1 6 = GetObjectResult.found wC8 ∧ hasAudio wC8 = false) ∧
    reanalyze_view (fun _ => 0) ("ts") 11 [wC8] 1 6 = ⟨400, none, [wC8]⟩ := by
  have hfound : get_object [wC8] 1 6 = GetObjectResult.found wC8 := rfl
  have hnoaudio : hasAudio wC8 = false := rfl
  exact ⟨⟨hfound, hnoaudio⟩,
    C8_reanalyze_no_audio (fun _ => 0) ("ts") 11 [wC8] 1 6 wC8 hfound hnoaudio⟩

/-! Section C9 -/

lemma applyField_frame (s : Session) (kv : String × FieldValue) :
    identityFields (applyField s kv) = identityFields s ∧
    (applyField s kv).updated_at = s.updated_at := by
  unfold applyField
  split <;> exact ⟨rfl, rfl⟩

lemma foldl_applyField_frame (updates : List (String × FieldValue)) (s : Session) :
    identityFields (updates.foldl applyField s) = identityFields s ∧
    (updates.foldl applyField s).updated_at = s.updated_at := by
  induction updates generalizing s with
  | nil => exact ⟨rfl, rfl⟩
  | cons kv rest ih =>
      rw [List.foldl_cons]
      refine ⟨?_, ?_⟩
      · rw [(ih (applyField s kv)).1, (applyField_frame s kv).1]
      · rw [(ih (applyField s kv)).2, (applyField_frame s kv).2]

/-- C9: counterexample to the claim as stated.  Owner 1 bulk-updates the
session with id 9 to archived status; the mutation succeeds and changes
the stored status, yet updated_at keeps its prior value 50 rather than
being bumped to the mutation time, because queryset.update bypasses
save() and hence the auto_now column. -/
theorem C9_counterexample :
    (bulk_update [sC9] 1 [9] [(("status" : String), FieldValue.str ("archived"))]).httpStatus = 200 ∧
    (bulk_update [sC9] 1 [9] [(("status" : String), FieldValue.str ("archived"))]).db =
      [{ sC9 with status := "archived" }] ∧
    ({ sC9 with status := "archived" } : Session).updated_at = 50 ∧
    (50 : Int) ≠ 100 :=
  ⟨rfl, rfl, rfl, by decide⟩

/-- C9: amended.  Mutations that pass through save — the serializer
update of a direct edit and the re-analyze simulator — set updated_at to
the mutation time, while the bulk-update endpoint and the bulk archive
and mark-analyzed actions leave updated_at untouched because they run
queryset.update; under all of these operations id, owner, date and
created_at of every stored session are unchanged. -/
theorem C9_updated_at :
    (∀ (now : Int) (p : UpdatePayload) (s : Session),
      (applyPayload now p s).updated_at = now ∧
      identityFields (applyPayload now p s) = identityFields s) ∧
    (∀ (hashFn : String → Nat) (ts : String) (now : Int) (s : Session),
      (reanalyzeSession hashFn ts now s).updated_at = now ∧
      identityFields (reanalyzeSession hashFn ts now s) = identityFields s) ∧
    (∀ (db : List Session) (owner : Nat) (ids : List Nat)
        (updates : List (String × FieldValue)),
      ((bulk_update db owner ids updates).db).map
          (fun s => (identityFields s, s.updated_at)) =
        db.map (fun s => (identityFields s, s.updated_at))) ∧
    (∀ (db : List Session) (actor : Nat) (ids : List Nat),
      ((bulk_action db actor ("archive") ids).db).map
          (fun s => (identityFields s, s.updated_at)) =
        db.map (fun s => (identityFields s, s.updated_at))) ∧
    (∀ (db : List Session) (actor : Nat) (ids : List Nat),
      ((bulk_action db actor ("mark_analyzed") ids).db).map
          (fun s => (identityFields s, s.updated_at)) =
        db.map (fun s => (identityFields s, s.updated_at))) := by
  refine ⟨fun now p s => ⟨rfl, rfl⟩, fun hashFn ts now s => ⟨rfl, rfl⟩, ?_, ?_, ?_⟩
  · intro db owner ids updates
    rw [bulk_update]
    split
    · rfl
    · dsimp only
      split
      · rfl
      · split
        · rfl
        · rw [List.map_map]
          refine List.map_congr_left (fun s _ => ?_)
          by_cases hsel : bulkSelected owner ids s = true

          · simp only [Function.comp_apply, if_pos hsel]
            rw [(foldl_applyField_frame updates s).1, (foldl_applyField_frame updates s).2]
          · simp only [Function.comp_apply,
              if_neg (fun hc => hsel hc)]
  · intro db actor ids
    rw [bulk_action]
    split
    · rfl
    · dsimp only
      split
      · rfl
      · rw [if_neg (by decide), if_pos (by decide : (("archive" : String) == "archive") = true)]
        rw [List.map_map]
        refine List.map_congr_left (fun s _ => ?_)
        by_cases hsel : actionSelected actor ids s = true
        · simp only [Function.comp_apply, if_pos hsel]
          rfl
        · simp only [Function.comp_apply, if_neg (fun hc => hsel hc)]
  · intro db actor ids
    rw [bulk_action]
    split
    · rfl
    · dsimp only
      split
      · rfl
      · rw [if_neg (by decide), if_neg (by decide),
            if_pos (by decide : (("mark_analyzed" : String) == "mark_analyzed") = true)]
        rw [List.map_map]
        refine List.map_congr_left (fun s _ => ?_)
        by_cases hsel : actionSelected actor ids s = true
        · simp only [Function.comp_apply, if_pos hsel]
          rfl
        · simp only [Function.comp_apply, if_neg (fun hc => hsel hc)]

/-! Section C6 -/

/-- C6: confirmed.  The session list contains exactly the sessions of
the owner that pass every supplied filter — status equality, day
granularity date range inclusive on both ends, case-insensitive
substring search over transcription or pacing_analysis — with an absent
input contributing no clause; it is sorted by date descending, every
page of the paginator holds at most 10 items drawn from the list, and a
session of another owner is never returned. -/
theorem C6_session_list (db : List Session) (owner : Nat) (statusq : Option String)
    (dayFrom dayTo : Option Int) (searchq : Option String) :
    (∀ s, s ∈ session_list db owner statusq dayFrom dayTo searchq ↔
      (s ∈ db ∧ s.user = owner ∧
        (∀ st, statusq = some st → s.status = st) ∧
        (∀ d, dayFrom = some d → d ≤ dayOf s.date) ∧
        (∀ d, dayTo = some d → dayOf s.date ≤ d) ∧
        (∀ q, searchq = some q →
          (icontains s.transcription q || icontains s.pacing_analysis q) = true))) ∧
    List.Sorted dateGe (session_list db owner statusq dayFrom dayTo searchq) ∧
    (∀ n, (page_items (session_list db owner statusq dayFrom dayTo searchq) n).length ≤ 10) ∧
    (∀ n s, s ∈ page_items (session_list db owner statusq dayFrom dayTo searchq) n →
      s ∈ session_list db owner statusq dayFrom dayTo searchq) := by
  refine ⟨?_, ?_, ?_, ?_⟩
  · intro s
    unfold session_list
    cases statusq <;> cases dayFrom <;> cases dayTo <;> cases searchq <;>
      (simp [List.mem_filter]; try tauto)
  · unfold session_list
    exact List.sorted_insertionSort dateGe _
  · intro n
    exact List.length_take_le 10 _
  · intro n s h
    exact List.mem_of_mem_drop (List.mem_of_mem_take h)

end SpeechSessions
